import Mathlib

/-!
# cfn/handler/request.go

A shallow embedding of the `handler` package's `Request` value: its constructor
`NewRequest` and the three decode methods `UnmarshalPrevious`, `Unmarshal` and
`UnmarshalTypeConfig`.

Conventions of the embedding.

* A Go `[]byte` is `Option (List UInt8)`: `none` is the nil slice, `some []` the empty
  non-nil slice; both have `len` 0.
* A Go `error` result is an `Option`: `none` is the nil error.
* The methods have a pointer receiver `r` and a pointer target `v`. A pointer into a memory
  `μ` is a `Ptr μ τ`: how to load the pointee and how to store into it. The methods of
  namespace `Mem` are the embedding of the source: they run on a memory, read the request
  through `r` and write the decoded value through `v`, so the target may be apart from the
  request, a part of it, or the request itself.
* `Request.UnmarshalPrevious`, `Request.Unmarshal` and `Request.UnmarshalTypeConfig` are the
  `Mem` methods on the memory made of a request and a target held apart from it; they return
  the target after the call and the error (`Outcome`).
* `encoding.Unmarshal` belongs to another package; every method takes it as the parameter
  `unmarshal`, a function from the body and the target before the call to the error and
  the target after the call.
-/

namespace Handler

/-! ## Go values -/

/-- A Go byte slice; `none` is the nil slice. -/
abbrev Bytes := Option (List UInt8)

/-- Go's builtin `len` on a byte slice: the nil slice has length 0. -/
def len : Bytes → Nat
  | none => 0
  | some bs => bs.length

/-- A Go map; `none` is the nil map, `some []` the empty map. -/
abbrev GoMap (κ ν : Type) := Option (List (κ × ν))

/-! ## Package cfnerr -/

namespace cfnerr

/-- Modelled from the spec: package `cfnerr` is not under src/. An error value carries the
error-kind tag, a human-readable message and the wrapped underlying error, if any. -/
structure Error (ε : Type) where
  Code : String
  Message : String
  OrigErr : Option ε
deriving DecidableEq

/-- Modelled from the spec: `cfnerr.New(code, message, origErr)` is not under src/; it
builds the error of kind `code` with message `message` that wraps `origErr`. -/
def New {ε : Type} (code message : String) (origErr : Option ε) : Error ε :=
  { Code := code, Message := message, OrigErr := origErr }

end cfnerr

/-! ## Constants (request.go, lines 10-16) -/

/-- The constant marshalingError: data could not be converted from one format into another. -/
def marshalingError : String := "Marshaling"

/-- The constant bodyEmptyError: the resource body is empty. -/
def bodyEmptyError : String := "BodyEmpty"

/-! ## Types (request.go, lines 18-62) -/

/-- The struct RequestContext: information about the current invocation. -/
structure RequestContext where
  StackID : String
  Region : String
  AccountID : String
  StackTags : GoMap String String
  SystemTags : GoMap String String
  NextToken : String
deriving DecidableEq

/-- The struct Request. `ι` stands for the dynamic values (`interface{}`) of the callback
context and `σ` for `session.Session`; the session is a pointer, `none` when nil. -/
structure Request (ι σ : Type) where
  LogicalResourceID : String
  CallbackContext : GoMap String ι
  RequestContext : RequestContext
  Session : Option σ
  previousResourcePropertiesBody : Bytes
  resourcePropertiesBody : Bytes
  typeConfigurationBody : Bytes
deriving DecidableEq

/-- What the caller of a decode method observes when the target is held apart from the
request: the target after the call and the returned error. -/
structure Outcome (τ ε : Type) where
  target : τ
  err : Option (cfnerr.Error ε)
deriving DecidableEq

/-! ## Pointers -/

/-- A Go pointer to a value of type `τ` held in a memory `μ`: reading the pointee and writing
it. -/
structure Ptr (μ τ : Type) where
  load : μ → τ
  store : τ → μ → μ

/-- The pointer to a memory that is a single value. -/
def Ptr.self {α : Type} : Ptr α α :=
  { load := fun m => m, store := fun x _ => x }

/-- The pointer to the first of two values held apart. -/
def Ptr.fst {α β : Type} : Ptr (α × β) α :=
  { load := fun m => m.1, store := fun x m => (x, m.2) }

/-- The pointer to the second of two values held apart. -/
def Ptr.snd {α β : Type} : Ptr (α × β) β :=
  { load := fun m => m.2, store := fun x m => (m.1, x) }

/-! ## Functions (request.go, lines 64-117) -/

/-- The function NewRequest (request.go, lines 65-75). -/
def NewRequest {ι σ : Type} (id : String) (ctx : GoMap String ι) (requestCTX : RequestContext)
    (sess : Option σ) (previousBody body typeConfig : Bytes) : Request ι σ :=
  { LogicalResourceID := id
    CallbackContext := ctx
    Session := sess
    previousResourcePropertiesBody := previousBody
    resourcePropertiesBody := body
    RequestContext := requestCTX
    typeConfigurationBody := typeConfig }

/-- The method Request.UnmarshalPrevious (request.go, lines 79-89), on a memory `m` with the
receiver `r` and the target `v`: the returned error and the memory after the call. -/
def Mem.UnmarshalPrevious {μ ι σ τ ε : Type} (unmarshal : Bytes → τ → Option ε × τ)
    (r : Ptr μ (Request ι σ)) (v : Ptr μ τ) (m : μ) : Option (cfnerr.Error ε) × μ :=
  if len (r.load m).previousResourcePropertiesBody == 0 then
    (none, m)
  else
    match unmarshal (r.load m).previousResourcePropertiesBody (v.load m) with
    | (some err, v') =>
      (some (cfnerr.New marshalingError "Unable to convert type" (some err)), v.store v' m)
    | (none, v') => (none, v.store v' m)

/-- The method Request.Unmarshal (request.go, lines 93-103), on a memory `m` with the receiver
`r` and the target `v`: the returned error and the memory after the call. -/
def Mem.Unmarshal {μ ι σ τ ε : Type} (unmarshal : Bytes → τ → Option ε × τ)
    (r : Ptr μ (Request ι σ)) (v : Ptr μ τ) (m : μ) : Option (cfnerr.Error ε) × μ :=
  if len (r.load m).resourcePropertiesBody == 0 then
    (some (cfnerr.New bodyEmptyError "Body is empty" none), m)
  else
    match unmarshal (r.load m).resourcePropertiesBody (v.load m) with
    | (some err, v') =>
      (some (cfnerr.New marshalingError "Unable to convert type" (some err)), v.store v' m)
    | (none, v') => (none, v.store v' m)

/-- The method Request.UnmarshalTypeConfig (request.go, lines 107-117), on a memory `m` with
the receiver `r` and the target `v`: the returned error and the memory after the call. -/
def Mem.UnmarshalTypeConfig {μ ι σ τ ε : Type} (unmarshal : Bytes → τ → Option ε × τ)
    (r : Ptr μ (Request ι σ)) (v : Ptr μ τ) (m : μ) : Option (cfnerr.Error ε) × μ :=
  if len (r.load m).typeConfigurationBody == 0 then
    (some (cfnerr.New bodyEmptyError "Type Config is empty" none), m)
  else
    match unmarshal (r.load m).typeConfigurationBody (v.load m) with
    | (some err, v') =>
      (some (cfnerr.New marshalingError "Unable to convert type" (some err)), v.store v' m)
    | (none, v') => (none, v.store v' m)

/-- Request.UnmarshalPrevious called on the request `r` with a target held apart from it,
whose value before the call is `v`. -/
def Request.UnmarshalPrevious {ι σ τ ε : Type} (unmarshal : Bytes → τ → Option ε × τ)
    (r : Request ι σ) (v : τ) : Outcome τ ε :=
  { target := (Mem.UnmarshalPrevious unmarshal Ptr.fst Ptr.snd (r, v)).2.2
    err := (Mem.UnmarshalPrevious unmarshal Ptr.fst Ptr.snd (r, v)).1 }

/-- Request.Unmarshal called on the request `r` with a target held apart from it, whose value
before the call is `v`. -/
def Request.Unmarshal {ι σ τ ε : Type} (unmarshal : Bytes → τ → Option ε × τ)
    (r : Request ι σ) (v : τ) : Outcome τ ε :=
  { target := (Mem.Unmarshal unmarshal Ptr.fst Ptr.snd (r, v)).2.2
    err := (Mem.Unmarshal unmarshal Ptr.fst Ptr.snd (r, v)).1 }

/-- Request.UnmarshalTypeConfig called on the request `r` with a target held apart from it,
whose value before the call is `v`. -/
def Request.UnmarshalTypeConfig {ι σ τ ε : Type} (unmarshal : Bytes → τ → Option ε × τ)
    (r : Request ι σ) (v : τ) : Outcome τ ε :=
  { target := (Mem.UnmarshalTypeConfig unmarshal Ptr.fst Ptr.snd (r, v)).2.2
    err := (Mem.UnmarshalTypeConfig unmarshal Ptr.fst Ptr.snd (r, v)).1 }

/-! ## A concrete decoder, to instantiate the theorems

The decode methods are parametric in `encoding.Unmarshal`. The instances below evaluate
them with a small decoder for the one-field model `struct { Name string }`. -/

/-- The model `struct { Name string }`; its zero value has the empty name. -/
structure Model where
  Name : String
deriving DecidableEq

/-- The bytes of a string of ASCII characters, as a non-nil slice. -/
def bytesOf (s : String) : Bytes :=
  some (s.toList.map (fun c => c.toNat.toUInt8))

/-- Strips the leading bytes `p` from `bs`, when `bs` starts with them. -/
def stripLeading : List UInt8 → List UInt8 → Option (List UInt8)
  | [], bs => some bs
  | _ :: _, [] => none
  | p :: ps, b :: bs => if p = b then stripLeading ps bs else none

/-- A decoder for `Model`: it accepts exactly the bodies `\x7b"Name":"s"\x7d` where `s` has
neither a quote nor a backslash, and stores `s` in the target; on any other body it fails and
leaves the target as it was. -/
def sampleUnmarshal (data : Bytes) (v : Model) : Option String × Model :=
  match data with
  | none => (some "unexpected end of JSON input", v)
  | some bs =>
    match stripLeading [0x7b, 0x22, 0x4e, 0x61, 0x6d, 0x65, 0x22, 0x3a, 0x22] bs with
    | none => (some "cannot unmarshal into Go value of type Model", v)
    | some rest =>
      match stripLeading [0x7d, 0x22] rest.reverse with
      | none => (some "cannot unmarshal into Go value of type Model", v)
      | some eman =>
        if eman.all (fun b => b != 0x22 && b != 0x5c) then
          (none, { Name := String.mk (eman.reverse.map (fun b => Char.ofNat b.toNat)) })
        else (some "cannot unmarshal into Go value of type Model", v)

/-- An encoder for `Model`, the counterpart of `sampleUnmarshal`: the body
`\x7b"Name":"s"\x7d` for the name `s`. -/
def sampleMarshal (m : Model) : Bytes :=
  some ([0x7b, 0x22, 0x4e, 0x61, 0x6d, 0x65, 0x22, 0x3a, 0x22] ++
    m.Name.toList.map (fun c => c.toNat.toUInt8) ++ [0x22, 0x7d])

/-- A request with every field at its zero value except the three bodies. -/
def sampleRequest (previousBody body typeConfig : Bytes) : Request Unit Unit :=
  NewRequest "MyResource" none ⟨"", "", "", none, none, ""⟩ none previousBody body typeConfig

/-- A decoder for a target of type `Request`: it accepts exactly the bodies
`\x7b"LogicalResourceID":"s"\x7d` where `s` has neither a quote nor a backslash, and stores `s`
in the exported field of that name; on any other body it fails and leaves the target as it
was. -/
def sampleUnmarshalRequest (data : Bytes) (v : Request Unit Unit) :
    Option String × Request Unit Unit :=
  match data with
  | none => (some "unexpected end of JSON input", v)
  | some bs =>
    match stripLeading [0x7b, 0x22, 0x4c, 0x6f, 0x67, 0x69, 0x63, 0x61, 0x6c, 0x52, 0x65,
        0x73, 0x6f, 0x75, 0x72, 0x63, 0x65, 0x49, 0x44, 0x22, 0x3a, 0x22] bs with
    | none => (some "cannot unmarshal into Go value of type Request", v)
    | some rest =>
      match stripLeading [0x7d, 0x22] rest.reverse with
      | none => (some "cannot unmarshal into Go value of type Request", v)
      | some di =>
        if di.all (fun b => b != 0x22 && b != 0x5c) then
          (none, { v with
            LogicalResourceID := String.mk (di.reverse.map (fun b => Char.ofNat b.toNat)) })
        else (some "cannot unmarshal into Go value of type Request", v)

/-- A request whose current body names one of the request's own exported fields. -/
def selfNamingRequest : Request Unit Unit :=
  sampleRequest none (bytesOf "\x7b\"LogicalResourceID\":\"changed\"\x7d") none

/-- A memory holding a request and, apart from it, a zero-valued model. -/
def sampleMemory : Request Unit Unit × Model :=
  (sampleRequest none (bytesOf "\x7b\"Name\":\"bucket1\"\x7d") none, ⟨""⟩)

/-! ## Shared lemmas -/

theorem len_eq_zero_iff (b : Bytes) : len b = 0 ↔ b = none ∨ b = some [] := by
  cases b with
  | none => simp [len]
  | some bs => cases bs <;> simp [len]

theorem marshalingError_ne_bodyEmptyError : marshalingError ≠ bodyEmptyError := by
  decide

theorem UnmarshalPrevious_of_empty {ι σ τ ε : Type} (unmarshal : Bytes → τ → Option ε × τ)
    (r : Request ι σ) (v : τ) (h : len r.previousResourcePropertiesBody = 0) :
    r.UnmarshalPrevious unmarshal v = { target := v, err := none } := by
  simp [Request.UnmarshalPrevious, Mem.UnmarshalPrevious, Ptr.fst, Ptr.snd, h]

theorem UnmarshalPrevious_of_nonempty {ι σ τ ε : Type} (unmarshal : Bytes → τ → Option ε × τ)
    (r : Request ι σ) (v : τ) (h : len r.previousResourcePropertiesBody ≠ 0) :
    r.UnmarshalPrevious unmarshal v =
      { target := (unmarshal r.previousResourcePropertiesBody v).2
        err := (unmarshal r.previousResourcePropertiesBody v).1.map
          (fun e => cfnerr.New marshalingError "Unable to convert type" (some e)) } := by
  unfold Request.UnmarshalPrevious Mem.UnmarshalPrevious
  rcases hu : unmarshal r.previousResourcePropertiesBody v with ⟨_ | e, w⟩ <;>
    simp [Ptr.fst, Ptr.snd, h, hu]

theorem Unmarshal_of_empty {ι σ τ ε : Type} (unmarshal : Bytes → τ → Option ε × τ)
    (r : Request ι σ) (v : τ) (h : len r.resourcePropertiesBody = 0) :
    r.Unmarshal unmarshal v =
      { target := v, err := some (cfnerr.New bodyEmptyError "Body is empty" none) } := by
  simp [Request.Unmarshal, Mem.Unmarshal, Ptr.fst, Ptr.snd, h]

theorem Unmarshal_of_nonempty {ι σ τ ε : Type} (unmarshal : Bytes → τ → Option ε × τ)
    (r : Request ι σ) (v : τ) (h : len r.resourcePropertiesBody ≠ 0) :
    r.Unmarshal unmarshal v =
      { target := (unmarshal r.resourcePropertiesBody v).2
        err := (unmarshal r.resourcePropertiesBody v).1.map
          (fun e => cfnerr.New marshalingError "Unable to convert type" (some e)) } := by
  unfold Request.Unmarshal Mem.Unmarshal
  rcases hu : unmarshal r.resourcePropertiesBody v with ⟨_ | e, w⟩ <;>
    simp [Ptr.fst, Ptr.snd, h, hu]

theorem UnmarshalTypeConfig_of_empty {ι σ τ ε : Type} (unmarshal : Bytes → τ → Option ε × τ)
    (r : Request ι σ) (v : τ) (h : len r.typeConfigurationBody = 0) :
    r.UnmarshalTypeConfig unmarshal v =
      { target := v, err := some (cfnerr.New bodyEmptyError "Type Config is empty" none) } := by
  simp [Request.UnmarshalTypeConfig, Mem.UnmarshalTypeConfig, Ptr.fst, Ptr.snd, h]

theorem UnmarshalTypeConfig_of_nonempty {ι σ τ ε : Type} (unmarshal : Bytes → τ → Option ε × τ)
    (r : Request ι σ) (v : τ) (h : len r.typeConfigurationBody ≠ 0) :
    r.UnmarshalTypeConfig unmarshal v =
      { target := (unmarshal r.typeConfigurationBody v).2
        err := (unmarshal r.typeConfigurationBody v).1.map
          (fun e => cfnerr.New marshalingError "Unable to convert type" (some e)) } := by
  unfold Request.UnmarshalTypeConfig Mem.UnmarshalTypeConfig
  rcases hu : unmarshal r.typeConfigurationBody v with ⟨_ | e, w⟩ <;>
    simp [Ptr.fst, Ptr.snd, h, hu]

/-! ### The methods on a memory, seen through the two pointers -/

theorem Mem_UnmarshalPrevious_memory {μ ι σ τ ε : Type} (unmarshal : Bytes → τ → Option ε × τ)
    (r : Ptr μ (Request ι σ)) (v : Ptr μ τ) (m : μ) :
    (Mem.UnmarshalPrevious unmarshal r v m).2 =
      (if len (r.load m).previousResourcePropertiesBody = 0 then m
       else v.store (unmarshal (r.load m).previousResourcePropertiesBody (v.load m)).2 m) := by
  unfold Mem.UnmarshalPrevious
  by_cases h : len (r.load m).previousResourcePropertiesBody = 0
  · simp [h]
  · rcases hu : unmarshal (r.load m).previousResourcePropertiesBody (v.load m) with ⟨_ | e, w⟩ <;>
      simp [h]

theorem Mem_Unmarshal_memory {μ ι σ τ ε : Type} (unmarshal : Bytes → τ → Option ε × τ)
    (r : Ptr μ (Request ι σ)) (v : Ptr μ τ) (m : μ) :
    (Mem.Unmarshal unmarshal r v m).2 =
      (if len (r.load m).resourcePropertiesBody = 0 then m
       else v.store (unmarshal (r.load m).resourcePropertiesBody (v.load m)).2 m) := by
  unfold Mem.Unmarshal
  by_cases h : len (r.load m).resourcePropertiesBody = 0
  · simp [h]
  · rcases hu : unmarshal (r.load m).resourcePropertiesBody (v.load m) with ⟨_ | e, w⟩ <;>
      simp [h]

theorem Mem_UnmarshalTypeConfig_memory {μ ι σ τ ε : Type}
    (unmarshal : Bytes → τ → Option ε × τ) (r : Ptr μ (Request ι σ)) (v : Ptr μ τ) (m : μ) :
    (Mem.UnmarshalTypeConfig unmarshal r v m).2 =
      (if len (r.load m).typeConfigurationBody = 0 then m
       else v.store (unmarshal (r.load m).typeConfigurationBody (v.load m)).2 m) := by
  unfold Mem.UnmarshalTypeConfig
  by_cases h : len (r.load m).typeConfigurationBody = 0
  · simp [h]
  · rcases hu : unmarshal (r.load m).typeConfigurationBody (v.load m) with ⟨_ | e, w⟩ <;>
      simp [h]

theorem Mem_UnmarshalPrevious_err {μ ι σ τ ε : Type} (unmarshal : Bytes → τ → Option ε × τ)
    (r : Ptr μ (Request ι σ)) (v : Ptr μ τ) (m : μ) :
    (Mem.UnmarshalPrevious unmarshal r v m).1 =
      ((r.load m).UnmarshalPrevious unmarshal (v.load m)).err := by
  unfold Request.UnmarshalPrevious Mem.UnmarshalPrevious
  by_cases h : len (r.load m).previousResourcePropertiesBody = 0
  · simp [Ptr.fst, Ptr.snd, h]
  · rcases hu : unmarshal (r.load m).previousResourcePropertiesBody (v.load m) with ⟨_ | e, w⟩ <;>
      simp [Ptr.fst, Ptr.snd, h, hu]

theorem Mem_Unmarshal_err {μ ι σ τ ε : Type} (unmarshal : Bytes → τ → Option ε × τ)
    (r : Ptr μ (Request ι σ)) (v : Ptr μ τ) (m : μ) :
    (Mem.Unmarshal unmarshal r v m).1 = ((r.load m).Unmarshal unmarshal (v.load m)).err := by
  unfold Request.Unmarshal Mem.Unmarshal
  by_cases h : len (r.load m).resourcePropertiesBody = 0
  · simp [Ptr.fst, Ptr.snd, h]
  · rcases hu : unmarshal (r.load m).resourcePropertiesBody (v.load m) with ⟨_ | e, w⟩ <;>
      simp [Ptr.fst, Ptr.snd, h, hu]

theorem Mem_UnmarshalTypeConfig_err {μ ι σ τ ε : Type} (unmarshal : Bytes → τ → Option ε × τ)
    (r : Ptr μ (Request ι σ)) (v : Ptr μ τ) (m : μ) :
    (Mem.UnmarshalTypeConfig unmarshal r v m).1 =
      ((r.load m).UnmarshalTypeConfig unmarshal (v.load m)).err := by
  unfold Request.UnmarshalTypeConfig Mem.UnmarshalTypeConfig
  by_cases h : len (r.load m).typeConfigurationBody = 0
  · simp [Ptr.fst, Ptr.snd, h]
  · rcases hu : unmarshal (r.load m).typeConfigurationBody (v.load m) with ⟨_ | e, w⟩ <;>
      simp [Ptr.fst, Ptr.snd, h, hu]

/-! ## Empty bodies -/

/-- C1: when the current-properties body has length 0 (nil or empty), `Unmarshal` returns a
non-nil error of kind "BodyEmpty", for every decoder, every target and every value of the
other fields of the request. -/
theorem Unmarshal_empty_is_BodyEmpty {ι σ τ ε : Type} (unmarshal : Bytes → τ → Option ε × τ)
    (r : Request ι σ) (v : τ) (h : len r.resourcePropertiesBody = 0) :
    ∃ e, (r.Unmarshal unmarshal v).err = some e ∧ e.Code = "BodyEmpty" := by
  rw [Unmarshal_of_empty unmarshal r v h]
  exact ⟨_, rfl, rfl⟩

theorem Unmarshal_empty_is_BodyEmpty_witness :
    (len (sampleRequest (bytesOf "p") none (bytesOf "t")).resourcePropertiesBody = 0 ∧
      ∃ e, ((sampleRequest (bytesOf "p") none (bytesOf "t")).Unmarshal sampleUnmarshal
        ⟨"old"⟩).err = some e ∧ e.Code = "BodyEmpty") ∧
    (len (sampleRequest none (some []) none).resourcePropertiesBody = 0 ∧
      ∃ e, ((sampleRequest none (some []) none).Unmarshal sampleUnmarshal
        ⟨"old"⟩).err = some e ∧ e.Code = "BodyEmpty") :=
  ⟨⟨by decide, Unmarshal_empty_is_BodyEmpty sampleUnmarshal _ ⟨"old"⟩ (by decide)⟩,
   ⟨by decide, Unmarshal_empty_is_BodyEmpty sampleUnmarshal _ ⟨"old"⟩ (by decide)⟩⟩

/-- C2: when the previous-properties body has length 0 (nil or empty), `UnmarshalPrevious`
returns nil and is a no-op: whatever the decoder is (so the decoder is not consulted), the
error is nil and the target is left exactly as it was. -/
theorem UnmarshalPrevious_empty_is_noop {ι σ τ ε : Type} (unmarshal : Bytes → τ → Option ε × τ)
    (r : Request ι σ) (v : τ) (h : len r.previousResourcePropertiesBody = 0) :
    (r.UnmarshalPrevious unmarshal v).err = none ∧
    (r.UnmarshalPrevious unmarshal v).target = v ∧
    (∀ other : Bytes → τ → Option ε × τ,
      r.UnmarshalPrevious other v = r.UnmarshalPrevious unmarshal v) := by
  refine ⟨?_, ?_, ?_⟩
  · rw [UnmarshalPrevious_of_empty unmarshal r v h]
  · rw [UnmarshalPrevious_of_empty unmarshal r v h]
  · intro other
    rw [UnmarshalPrevious_of_empty unmarshal r v h, UnmarshalPrevious_of_empty other r v h]

theorem UnmarshalPrevious_empty_is_noop_witness :
    len (sampleRequest none (bytesOf "\x7b\"Name\":\"bucket1\"\x7d")
      none).previousResourcePropertiesBody = 0 ∧
    ((sampleRequest none (bytesOf "\x7b\"Name\":\"bucket1\"\x7d") none).UnmarshalPrevious
      sampleUnmarshal ⟨""⟩).err = none ∧
    ((sampleRequest none (bytesOf "\x7b\"Name\":\"bucket1\"\x7d") none).UnmarshalPrevious
      sampleUnmarshal ⟨""⟩).target = ⟨""⟩ :=
  ⟨by decide,
   (UnmarshalPrevious_empty_is_noop sampleUnmarshal
      (sampleRequest none (bytesOf "\x7b\"Name\":\"bucket1\"\x7d") none) ⟨""⟩ (by decide)).1,
   (UnmarshalPrevious_empty_is_noop sampleUnmarshal
      (sampleRequest none (bytesOf "\x7b\"Name\":\"bucket1\"\x7d") none) ⟨""⟩ (by decide)).2.1⟩

/-- C3: when the type-configuration body has length 0 (nil or empty), `UnmarshalTypeConfig`
returns a non-nil error of kind "BodyEmpty", for every decoder, every target and every value
of the current and previous bodies. -/
theorem UnmarshalTypeConfig_empty_is_BodyEmpty {ι σ τ ε : Type}
    (unmarshal : Bytes → τ → Option ε × τ) (r : Request ι σ) (v : τ)
    (h : len r.typeConfigurationBody = 0) :
    ∃ e, (r.UnmarshalTypeConfig unmarshal v).err = some e ∧ e.Code = "BodyEmpty" := by
  rw [UnmarshalTypeConfig_of_empty unmarshal r v h]
  exact ⟨_, rfl, rfl⟩

theorem UnmarshalTypeConfig_empty_is_BodyEmpty_witness :
    (len (sampleRequest (bytesOf "p") (bytesOf "b") none).typeConfigurationBody = 0 ∧
      ∃ e, ((sampleRequest (bytesOf "p") (bytesOf "b") none).UnmarshalTypeConfig
        sampleUnmarshal ⟨"old"⟩).err = some e ∧ e.Code = "BodyEmpty") ∧
    (len (sampleRequest none none (some [])).typeConfigurationBody = 0 ∧
      ∃ e, ((sampleRequest none none (some [])).UnmarshalTypeConfig sampleUnmarshal
        ⟨"old"⟩).err = some e ∧ e.Code = "BodyEmpty") :=
  ⟨⟨by decide, UnmarshalTypeConfig_empty_is_BodyEmpty sampleUnmarshal _ ⟨"old"⟩ (by decide)⟩,
   ⟨by decide, UnmarshalTypeConfig_empty_is_BodyEmpty sampleUnmarshal _ ⟨"old"⟩ (by decide)⟩⟩

/-! ## Non-empty bodies -/

/-- C4: for each of the three decode methods, when the method's own body `b` is non-empty and
the decoder fails on `(b, v)` with error `e`, the method returns a non-nil error of kind
"Marshaling" whose wrapped cause is `e`. -/
theorem decode_failure_is_Marshaling {ι σ τ ε : Type} (unmarshal : Bytes → τ → Option ε × τ)
    (b : Bytes) (v : τ) (e : ε) (hb : len b ≠ 0) (he : (unmarshal b v).1 = some e)
    (r : Request ι σ) :
    (r.previousResourcePropertiesBody = b →
      ∃ e', (r.UnmarshalPrevious unmarshal v).err = some e' ∧
        e'.Code = "Marshaling" ∧ e'.OrigErr = some e) ∧
    (r.resourcePropertiesBody = b →
      ∃ e', (r.Unmarshal unmarshal v).err = some e' ∧
        e'.Code = "Marshaling" ∧ e'.OrigErr = some e) ∧
    (r.typeConfigurationBody = b →
      ∃ e', (r.UnmarshalTypeConfig unmarshal v).err = some e' ∧
        e'.Code = "Marshaling" ∧ e'.OrigErr = some e) := by
  refine ⟨?_, ?_, ?_⟩
  · intro hr
    subst hr
    rw [UnmarshalPrevious_of_nonempty unmarshal r v hb]
    exact ⟨_, by simp only [he, Option.map_some']; rfl, rfl, rfl⟩
  · intro hr
    subst hr
    rw [Unmarshal_of_nonempty unmarshal r v hb]
    exact ⟨_, by simp only [he, Option.map_some']; rfl, rfl, rfl⟩
  · intro hr
    subst hr
    rw [UnmarshalTypeConfig_of_nonempty unmarshal r v hb]
    exact ⟨_, by simp only [he, Option.map_some']; rfl, rfl, rfl⟩

theorem decode_failure_is_Marshaling_witness :
    len (bytesOf "\"not-an-object\"") ≠ 0 ∧
    (sampleUnmarshal (bytesOf "\"not-an-object\"") ⟨""⟩).1 =
      some "cannot unmarshal into Go value of type Model" ∧
    (∃ e', ((sampleRequest (bytesOf "\"not-an-object\"") (bytesOf "\"not-an-object\"")
        (bytesOf "\"not-an-object\"")).UnmarshalPrevious sampleUnmarshal ⟨""⟩).err = some e' ∧
      e'.Code = "Marshaling" ∧
      e'.OrigErr = some "cannot unmarshal into Go value of type Model") ∧
    (∃ e', ((sampleRequest (bytesOf "\"not-an-object\"") (bytesOf "\"not-an-object\"")
        (bytesOf "\"not-an-object\"")).Unmarshal sampleUnmarshal ⟨""⟩).err = some e' ∧
      e'.Code = "Marshaling" ∧
      e'.OrigErr = some "cannot unmarshal into Go value of type Model") ∧
    (∃ e', ((sampleRequest (bytesOf "\"not-an-object\"") (bytesOf "\"not-an-object\"")
        (bytesOf "\"not-an-object\"")).UnmarshalTypeConfig sampleUnmarshal ⟨""⟩).err = some e' ∧
      e'.Code = "Marshaling" ∧
      e'.OrigErr = some "cannot unmarshal into Go value of type Model") :=
  have h := decode_failure_is_Marshaling sampleUnmarshal (bytesOf "\"not-an-object\"") ⟨""⟩
    "cannot unmarshal into Go value of type Model" (by decide) (by decide)
    (sampleRequest (bytesOf "\"not-an-object\"") (bytesOf "\"not-an-object\"")
      (bytesOf "\"not-an-object\""))
  ⟨by decide, by decide, h.1 rfl, h.2.1 rfl, h.2.2 rfl⟩

/-- C5: for each of the three decode methods, when the method's own body `b` is non-empty and
the decoder succeeds on `(b, v)`, the method returns nil and the target holds exactly what the
decoder produced from `b`. -/
theorem decode_success_populates_target {ι σ τ ε : Type}
    (unmarshal : Bytes → τ → Option ε × τ) (b : Bytes) (v : τ) (hb : len b ≠ 0)
    (hok : (unmarshal b v).1 = none) (r : Request ι σ) :
    (r.previousResourcePropertiesBody = b →
      (r.UnmarshalPrevious unmarshal v).err = none ∧
      (r.UnmarshalPrevious unmarshal v).target = (unmarshal b v).2) ∧
    (r.resourcePropertiesBody = b →
      (r.Unmarshal unmarshal v).err = none ∧
      (r.Unmarshal unmarshal v).target = (unmarshal b v).2) ∧
    (r.typeConfigurationBody = b →
      (r.UnmarshalTypeConfig unmarshal v).err = none ∧
      (r.UnmarshalTypeConfig unmarshal v).target = (unmarshal b v).2) := by
  refine ⟨?_, ?_, ?_⟩
  · intro hr
    subst hr
    rw [UnmarshalPrevious_of_nonempty unmarshal r v hb]
    exact ⟨by simp only [hok, Option.map_none'], rfl⟩
  · intro hr
    subst hr
    rw [Unmarshal_of_nonempty unmarshal r v hb]
    exact ⟨by simp only [hok, Option.map_none'], rfl⟩
  · intro hr
    subst hr
    rw [UnmarshalTypeConfig_of_nonempty unmarshal r v hb]
    exact ⟨by simp only [hok, Option.map_none'], rfl⟩

theorem decode_success_populates_target_witness :
    len (bytesOf "\x7b\"Name\":\"bucket1\"\x7d") ≠ 0 ∧
    (sampleUnmarshal (bytesOf "\x7b\"Name\":\"bucket1\"\x7d") ⟨""⟩).1 = none ∧
    (sampleUnmarshal (bytesOf "\x7b\"Name\":\"bucket1\"\x7d") ⟨""⟩).2 = ⟨"bucket1"⟩ ∧
    ((sampleRequest none (bytesOf "\x7b\"Name\":\"bucket1\"\x7d") none).Unmarshal
      sampleUnmarshal ⟨""⟩).err = none ∧
    ((sampleRequest none (bytesOf "\x7b\"Name\":\"bucket1\"\x7d") none).Unmarshal
      sampleUnmarshal ⟨""⟩).target = (sampleUnmarshal (bytesOf "\x7b\"Name\":\"bucket1\"\x7d") ⟨""⟩).2 :=
  have h := decode_success_populates_target sampleUnmarshal
    (bytesOf "\x7b\"Name\":\"bucket1\"\x7d") ⟨""⟩ (by decide) (by decide)
    (sampleRequest none (bytesOf "\x7b\"Name\":\"bucket1\"\x7d") none)
  ⟨by decide, by decide, by decide, (h.2.1 rfl).1, (h.2.1 rfl).2⟩

/-! ## Re-encoding

`request.go` has no encoder; `encoding.Marshal` belongs to the same absent package as
`encoding.Unmarshal`. What the request itself contributes to a round trip is the emptiness
rule and the forwarding, stated here for an arbitrary encoder. -/

/-- Re-decoding through the request. When the decoder succeeds on the non-empty current body
giving the model `m`, and `marshal m` is a non-empty body from which the decoder gives back
`m`, then `Unmarshal` succeeds with `m` both on the request and on the request rebuilt with
the current body `marshal m`. -/
theorem Unmarshal_of_reencoded {ι σ τ ε : Type} (unmarshal : Bytes → τ → Option ε × τ)
    (marshal : τ → Bytes) (r : Request ι σ) (v v' m : τ)
    (hb : len r.resourcePropertiesBody ≠ 0)
    (hm : unmarshal r.resourcePropertiesBody v = (none, m))
    (hne : len (marshal m) ≠ 0)
    (hrt : unmarshal (marshal m) v' = (none, m)) :
    (r.Unmarshal unmarshal v).err = none ∧ (r.Unmarshal unmarshal v).target = m ∧
    (({ r with resourcePropertiesBody := marshal m } : Request ι σ).Unmarshal
      unmarshal v').err = none ∧
    (({ r with resourcePropertiesBody := marshal m } : Request ι σ).Unmarshal
      unmarshal v').target = m := by
  rw [Unmarshal_of_nonempty unmarshal r v hb,
    Unmarshal_of_nonempty unmarshal { r with resourcePropertiesBody := marshal m } v' hne]
  simp [hm, hrt]

theorem Unmarshal_of_reencoded_sample :
    ((sampleRequest none (sampleMarshal (((sampleRequest none
        (bytesOf "\x7b\"Name\":\"bucket1\"\x7d") none).Unmarshal sampleUnmarshal
          ⟨""⟩).target)) none).Unmarshal sampleUnmarshal ⟨""⟩).target = ⟨"bucket1"⟩ := by
  decide

/-! ## Construction -/

/-- C6: the request built by `NewRequest` exposes the callback context it was given,
unchanged, for every mapping (the nil and the empty mapping included) and all other
arguments. -/
theorem NewRequest_CallbackContext {ι σ : Type} (id : String) (ctx : GoMap String ι)
    (requestCTX : RequestContext) (sess : Option σ) (previousBody body typeConfig : Bytes) :
    (NewRequest id ctx requestCTX sess previousBody body typeConfig).CallbackContext = ctx :=
  rfl

/-- C9: `NewRequest` is faithful to its arguments and does not cross them. The built request
has `LogicalResourceID = id`, `RequestContext = requestCTX` and `Session = sess`; and each decode
method is the decoder applied to its own body under that method's emptiness rule:
`UnmarshalPrevious` to `previousBody`, `Unmarshal` to `body`, `UnmarshalTypeConfig` to
`typeConfig`. Hence a request built from any other arguments but the same body gives the same
error and the same target for that body's method. -/
theorem NewRequest_faithful {ι σ τ ε : Type} (unmarshal : Bytes → τ → Option ε × τ) (v : τ)
    (id : String) (ctx : GoMap String ι) (requestCTX : RequestContext) (sess : Option σ)
    (previousBody body typeConfig : Bytes) :
    (NewRequest id ctx requestCTX sess previousBody body typeConfig).LogicalResourceID = id ∧
    (NewRequest id ctx requestCTX sess previousBody body typeConfig).RequestContext
      = requestCTX ∧
    (NewRequest id ctx requestCTX sess previousBody body typeConfig).Session = sess ∧
    ((NewRequest id ctx requestCTX sess previousBody body typeConfig).UnmarshalPrevious
        unmarshal v).err =
      (if len previousBody = 0 then none
       else (unmarshal previousBody v).1.map
        (fun e => cfnerr.New marshalingError "Unable to convert type" (some e))) ∧
    ((NewRequest id ctx requestCTX sess previousBody body typeConfig).UnmarshalPrevious
        unmarshal v).target =
      (if len previousBody = 0 then v else (unmarshal previousBody v).2) ∧
    ((NewRequest id ctx requestCTX sess previousBody body typeConfig).Unmarshal
        unmarshal v).err =
      (if len body = 0 then some (cfnerr.New bodyEmptyError "Body is empty" none)
       else (unmarshal body v).1.map
        (fun e => cfnerr.New marshalingError "Unable to convert type" (some e))) ∧
    ((NewRequest id ctx requestCTX sess previousBody body typeConfig).Unmarshal
        unmarshal v).target =
      (if len body = 0 then v else (unmarshal body v).2) ∧
    ((NewRequest id ctx requestCTX sess previousBody body typeConfig).UnmarshalTypeConfig
        unmarshal v).err =
      (if len typeConfig = 0 then some (cfnerr.New bodyEmptyError "Type Config is empty" none)
       else (unmarshal typeConfig v).1.map
        (fun e => cfnerr.New marshalingError "Unable to convert type" (some e))) ∧
    ((NewRequest id ctx requestCTX sess previousBody body typeConfig).UnmarshalTypeConfig
        unmarshal v).target =
      (if len typeConfig = 0 then v else (unmarshal typeConfig v).2) ∧
    (∀ (id' : String) (ctx' : GoMap String ι) (requestCTX' : RequestContext)
        (sess' : Option σ) (x y x' y' : Bytes),
      ((NewRequest id ctx requestCTX sess previousBody x y).UnmarshalPrevious unmarshal v).err =
        ((NewRequest id' ctx' requestCTX' sess' previousBody x' y').UnmarshalPrevious
          unmarshal v).err ∧
      ((NewRequest id ctx requestCTX sess previousBody x y).UnmarshalPrevious
          unmarshal v).target =
        ((NewRequest id' ctx' requestCTX' sess' previousBody x' y').UnmarshalPrevious
          unmarshal v).target ∧
      ((NewRequest id ctx requestCTX sess x body y).Unmarshal unmarshal v).err =
        ((NewRequest id' ctx' requestCTX' sess' x' body y').Unmarshal unmarshal v).err ∧
      ((NewRequest id ctx requestCTX sess x body y).Unmarshal unmarshal v).target =
        ((NewRequest id' ctx' requestCTX' sess' x' body y').Unmarshal unmarshal v).target ∧
      ((NewRequest id ctx requestCTX sess x y typeConfig).UnmarshalTypeConfig unmarshal v).err =
        ((NewRequest id' ctx' requestCTX' sess' x' y' typeConfig).UnmarshalTypeConfig
          unmarshal v).err ∧
      ((NewRequest id ctx requestCTX sess x y typeConfig).UnmarshalTypeConfig
          unmarshal v).target =
        ((NewRequest id' ctx' requestCTX' sess' x' y' typeConfig).UnmarshalTypeConfig
          unmarshal v).target) := by
  have hp : ∀ (r : Request ι σ), r.previousResourcePropertiesBody = previousBody →
      (r.UnmarshalPrevious unmarshal v).err =
        (if len previousBody = 0 then none
         else (unmarshal previousBody v).1.map
          (fun e => cfnerr.New marshalingError "Unable to convert type" (some e))) ∧
      (r.UnmarshalPrevious unmarshal v).target =
        (if len previousBody = 0 then v else (unmarshal previousBody v).2) := by
    intro r hr
    subst hr
    by_cases h : len r.previousResourcePropertiesBody = 0
    · rw [UnmarshalPrevious_of_empty unmarshal r v h]; simp [h]
    · rw [UnmarshalPrevious_of_nonempty unmarshal r v h]; simp [h]
  have hc : ∀ (r : Request ι σ), r.resourcePropertiesBody = body →
      (r.Unmarshal unmarshal v).err =
        (if len body = 0 then some (cfnerr.New bodyEmptyError "Body is empty" none)
         else (unmarshal body v).1.map
          (fun e => cfnerr.New marshalingError "Unable to convert type" (some e))) ∧
      (r.Unmarshal unmarshal v).target =
        (if len body = 0 then v else (unmarshal body v).2) := by
    intro r hr
    subst hr
    by_cases h : len r.resourcePropertiesBody = 0
    · rw [Unmarshal_of_empty unmarshal r v h]; simp [h]
    · rw [Unmarshal_of_nonempty unmarshal r v h]; simp [h]
  have ht : ∀ (r : Request ι σ), r.typeConfigurationBody = typeConfig →
      (r.UnmarshalTypeConfig unmarshal v).err =
        (if len typeConfig = 0 then
          some (cfnerr.New bodyEmptyError "Type Config is empty" none)
         else (unmarshal typeConfig v).1.map
          (fun e => cfnerr.New marshalingError "Unable to convert type" (some e))) ∧
      (r.UnmarshalTypeConfig unmarshal v).target =
        (if len typeConfig = 0 then v else (unmarshal typeConfig v).2) := by
    intro r hr
    subst hr
    by_cases h : len r.typeConfigurationBody = 0
    · rw [UnmarshalTypeConfig_of_empty unmarshal r v h]; simp [h]
    · rw [UnmarshalTypeConfig_of_nonempty unmarshal r v h]; simp [h]
  refine ⟨rfl, rfl, rfl, (hp _ rfl).1, (hp _ rfl).2, (hc _ rfl).1, (hc _ rfl).2,
    (ht _ rfl).1, (ht _ rfl).2, ?_⟩
  intro id' ctx' requestCTX' sess' x y x' y'
  refine ⟨?_, ?_, ?_, ?_, ?_, ?_⟩
  · rw [(hp (NewRequest id ctx requestCTX sess previousBody x y) rfl).1,
      (hp (NewRequest id' ctx' requestCTX' sess' previousBody x' y') rfl).1]
  · rw [(hp (NewRequest id ctx requestCTX sess previousBody x y) rfl).2,
      (hp (NewRequest id' ctx' requestCTX' sess' previousBody x' y') rfl).2]
  · rw [(hc (NewRequest id ctx requestCTX sess x body y) rfl).1,
      (hc (NewRequest id' ctx' requestCTX' sess' x' body y') rfl).1]
  · rw [(hc (NewRequest id ctx requestCTX sess x body y) rfl).2,
      (hc (NewRequest id' ctx' requestCTX' sess' x' body y') rfl).2]
  · rw [(ht (NewRequest id ctx requestCTX sess x y typeConfig) rfl).1,
      (ht (NewRequest id' ctx' requestCTX' sess' x' y' typeConfig) rfl).1]
  · rw [(ht (NewRequest id ctx requestCTX sess x y typeConfig) rfl).2,
      (ht (NewRequest id' ctx' requestCTX' sess' x' y' typeConfig) rfl).2]

/-! ## Frame

The methods never store through the receiver; their only store is the decoder's, through the
target. Whether the request survives a call therefore depends on where the target points. -/

/-- C8, as stated, fails when the target is the request itself: `Unmarshal` with receiver and
target both pointing at a request whose current body is `\x7b"LogicalResourceID":"changed"\x7d`
succeeds and leaves a request whose `LogicalResourceID` is "changed" instead of "MyResource". -/
theorem decode_into_receiver_mutates_request :
    (Mem.Unmarshal sampleUnmarshalRequest Ptr.self Ptr.self selfNamingRequest).1 = none ∧
    (Ptr.self.load selfNamingRequest).LogicalResourceID = "MyResource" ∧
    (Ptr.self.load (Mem.Unmarshal sampleUnmarshalRequest Ptr.self Ptr.self
      selfNamingRequest).2).LogicalResourceID = "changed" ∧
    Ptr.self.load (Mem.Unmarshal sampleUnmarshalRequest Ptr.self Ptr.self selfNamingRequest).2
      ≠ Ptr.self.load selfNamingRequest := by
  decide

/-- C8 (amended): for a target that does not overlap the request (storing through the target
leaves what the receiver points to as it was), no decode method mutates the request: after
`UnmarshalPrevious`, `Unmarshal` or `UnmarshalTypeConfig`, with any decoder, succeeding or
failing, the request (all three bodies and every other field) equals the request before the
call. Consequently decoding is repeatable: the same method called again, on any memory where
the request is the one the first call left and the target is in the same initial state, returns
the same error and leaves the same target contents. -/
theorem decode_does_not_mutate_request {μ ι σ τ ε : Type} (unmarshal : Bytes → τ → Option ε × τ)
    (r : Ptr μ (Request ι σ)) (v : Ptr μ τ) (m : μ)
    (hapart : ∀ (x : τ) (m' : μ), r.load (v.store x m') = r.load m')
    (hload : ∀ (x : τ) (m' : μ), v.load (v.store x m') = x) :
    (r.load (Mem.UnmarshalPrevious unmarshal r v m).2 = r.load m ∧
     r.load (Mem.Unmarshal unmarshal r v m).2 = r.load m ∧
     r.load (Mem.UnmarshalTypeConfig unmarshal r v m).2 = r.load m) ∧
    (∀ m₂ : μ, r.load m₂ = r.load (Mem.UnmarshalPrevious unmarshal r v m).2 →
      v.load m₂ = v.load m →
      (Mem.UnmarshalPrevious unmarshal r v m₂).1 = (Mem.UnmarshalPrevious unmarshal r v m).1 ∧
      v.load (Mem.UnmarshalPrevious unmarshal r v m₂).2
        = v.load (Mem.UnmarshalPrevious unmarshal r v m).2) ∧
    (∀ m₂ : μ, r.load m₂ = r.load (Mem.Unmarshal unmarshal r v m).2 →
      v.load m₂ = v.load m →
      (Mem.Unmarshal unmarshal r v m₂).1 = (Mem.Unmarshal unmarshal r v m).1 ∧
      v.load (Mem.Unmarshal unmarshal r v m₂).2 = v.load (Mem.Unmarshal unmarshal r v m).2) ∧
    (∀ m₂ : μ, r.load m₂ = r.load (Mem.UnmarshalTypeConfig unmarshal r v m).2 →
      v.load m₂ = v.load m →
      (Mem.UnmarshalTypeConfig unmarshal r v m₂).1
        = (Mem.UnmarshalTypeConfig unmarshal r v m).1 ∧
      v.load (Mem.UnmarshalTypeConfig unmarshal r v m₂).2
        = v.load (Mem.UnmarshalTypeConfig unmarshal r v m).2) := by
  have hP : r.load (Mem.UnmarshalPrevious unmarshal r v m).2 = r.load m := by
    rw [Mem_UnmarshalPrevious_memory]
    split_ifs
    · rfl
    · exact hapart _ _
  have hC : r.load (Mem.Unmarshal unmarshal r v m).2 = r.load m := by
    rw [Mem_Unmarshal_memory]
    split_ifs
    · rfl
    · exact hapart _ _
  have hT : r.load (Mem.UnmarshalTypeConfig unmarshal r v m).2 = r.load m := by
    rw [Mem_UnmarshalTypeConfig_memory]
    split_ifs
    · rfl
    · exact hapart _ _
  refine ⟨⟨hP, hC, hT⟩, ?_, ?_, ?_⟩
  · intro m₂ h₁ h₂
    have hr : r.load m₂ = r.load m := h₁.trans hP
    refine ⟨?_, ?_⟩
    · rw [Mem_UnmarshalPrevious_err, Mem_UnmarshalPrevious_err, hr, h₂]
    · rw [Mem_UnmarshalPrevious_memory, Mem_UnmarshalPrevious_memory, hr, h₂]
      split_ifs
      · exact h₂
      · rw [hload, hload]
  · intro m₂ h₁ h₂
    have hr : r.load m₂ = r.load m := h₁.trans hC
    refine ⟨?_, ?_⟩
    · rw [Mem_Unmarshal_err, Mem_Unmarshal_err, hr, h₂]
    · rw [Mem_Unmarshal_memory, Mem_Unmarshal_memory, hr, h₂]
      split_ifs
      · exact h₂
      · rw [hload, hload]
  · intro m₂ h₁ h₂
    have hr : r.load m₂ = r.load m := h₁.trans hT
    refine ⟨?_, ?_⟩
    · rw [Mem_UnmarshalTypeConfig_err, Mem_UnmarshalTypeConfig_err, hr, h₂]
    · rw [Mem_UnmarshalTypeConfig_memory, Mem_UnmarshalTypeConfig_memory, hr, h₂]
      split_ifs
      · exact h₂
      · rw [hload, hload]

theorem decode_does_not_mutate_request_witness :
    (∀ (x : Model) (m' : Request Unit Unit × Model),
      Ptr.fst.load (Ptr.snd.store x m') = Ptr.fst.load m') ∧
    (∀ (x : Model) (m' : Request Unit Unit × Model), Ptr.snd.load (Ptr.snd.store x m') = x) ∧
    Ptr.snd.load sampleMemory = ⟨""⟩ ∧
    Ptr.snd.load (Mem.Unmarshal sampleUnmarshal Ptr.fst Ptr.snd sampleMemory).2 = ⟨"bucket1"⟩ ∧
    Ptr.fst.load (Mem.Unmarshal sampleUnmarshal Ptr.fst Ptr.snd sampleMemory).2
      = Ptr.fst.load sampleMemory ∧
    (Mem.Unmarshal sampleUnmarshal Ptr.fst Ptr.snd
        (Ptr.snd.store ⟨""⟩ (Mem.Unmarshal sampleUnmarshal Ptr.fst Ptr.snd sampleMemory).2)).1
      = (Mem.Unmarshal sampleUnmarshal Ptr.fst Ptr.snd sampleMemory).1 :=
  have h := decode_does_not_mutate_request sampleUnmarshal Ptr.fst Ptr.snd sampleMemory
    (fun _ _ => rfl) (fun _ _ => rfl)
  ⟨fun _ _ => rfl, fun _ _ => rfl, by decide, by decide, h.1.2.1,
    (h.2.2.1 (Ptr.snd.store ⟨""⟩ (Mem.Unmarshal sampleUnmarshal Ptr.fst Ptr.snd sampleMemory).2)
      (by decide) (by decide)).1⟩

/-! ## Error taxonomy -/

/-- C10: the error taxonomy is closed and exact. Every non-nil error returned by a decode
method has kind "BodyEmpty" or "Marshaling". `Unmarshal` and `UnmarshalTypeConfig` return
kind "BodyEmpty" exactly when their own body is empty, and on an empty body they return
neither nil nor kind "Marshaling". `UnmarshalPrevious` never returns kind "BodyEmpty": any
error it returns has kind "Marshaling" and its body is non-empty. -/
theorem error_taxonomy {ι σ τ ε : Type} (unmarshal : Bytes → τ → Option ε × τ)
    (r : Request ι σ) (v : τ) :
    (∀ e, ((r.UnmarshalPrevious unmarshal v).err = some e ∨
           (r.Unmarshal unmarshal v).err = some e ∨
           (r.UnmarshalTypeConfig unmarshal v).err = some e) →
        e.Code = "BodyEmpty" ∨ e.Code = "Marshaling") ∧
    ((∃ e, (r.Unmarshal unmarshal v).err = some e ∧ e.Code = "BodyEmpty") ↔
        len r.resourcePropertiesBody = 0) ∧
    ((∃ e, (r.UnmarshalTypeConfig unmarshal v).err = some e ∧ e.Code = "BodyEmpty") ↔
        len r.typeConfigurationBody = 0) ∧
    (len r.resourcePropertiesBody = 0 →
        (r.Unmarshal unmarshal v).err ≠ none ∧
        ∀ e, (r.Unmarshal unmarshal v).err = some e → e.Code ≠ "Marshaling") ∧
    (len r.typeConfigurationBody = 0 →
        (r.UnmarshalTypeConfig unmarshal v).err ≠ none ∧
        ∀ e, (r.UnmarshalTypeConfig unmarshal v).err = some e → e.Code ≠ "Marshaling") ∧
    (∀ e, (r.UnmarshalPrevious unmarshal v).err = some e →
        e.Code = "Marshaling" ∧ e.Code ≠ "BodyEmpty" ∧
        len r.previousResourcePropertiesBody ≠ 0) := by
  have hmap : ∀ (o : Option ε) (e : cfnerr.Error ε),
      o.map (fun x => cfnerr.New marshalingError "Unable to convert type" (some x)) = some e →
      e.Code = "Marshaling" := by
    intro o e h
    cases o with
    | none => simp at h
    | some x =>
      simp only [Option.map_some', Option.some.injEq] at h
      subst h
      rfl
  have hP : ∀ e, (r.UnmarshalPrevious unmarshal v).err = some e →
      e.Code = "Marshaling" ∧ len r.previousResourcePropertiesBody ≠ 0 := by
    intro e he
    by_cases h : len r.previousResourcePropertiesBody = 0
    · rw [UnmarshalPrevious_of_empty unmarshal r v h] at he
      simp at he
    · rw [UnmarshalPrevious_of_nonempty unmarshal r v h] at he
      exact ⟨hmap _ _ he, h⟩
  have hC : ∀ e, (r.Unmarshal unmarshal v).err = some e →
      (len r.resourcePropertiesBody = 0 ∧ e.Code = "BodyEmpty") ∨
      (len r.resourcePropertiesBody ≠ 0 ∧ e.Code = "Marshaling") := by
    intro e he
    by_cases h : len r.resourcePropertiesBody = 0
    · rw [Unmarshal_of_empty unmarshal r v h] at he
      simp only [Option.some.injEq] at he
      subst he
      exact Or.inl ⟨h, rfl⟩
    · rw [Unmarshal_of_nonempty unmarshal r v h] at he
      exact Or.inr ⟨h, hmap _ _ he⟩
  have hT : ∀ e, (r.UnmarshalTypeConfig unmarshal v).err = some e →
      (len r.typeConfigurationBody = 0 ∧ e.Code = "BodyEmpty") ∨
      (len r.typeConfigurationBody ≠ 0 ∧ e.Code = "Marshaling") := by
    intro e he
    by_cases h : len r.typeConfigurationBody = 0
    · rw [UnmarshalTypeConfig_of_empty unmarshal r v h] at he
      simp only [Option.some.injEq] at he
      subst he
      exact Or.inl ⟨h, rfl⟩
    · rw [UnmarshalTypeConfig_of_nonempty unmarshal r v h] at he
      exact Or.inr ⟨h, hmap _ _ he⟩
  have hne : ∀ e : cfnerr.Error ε, e.Code = "Marshaling" → e.Code ≠ "BodyEmpty" := by
    intro e h1 h2
    rw [h1] at h2
    exact absurd h2 (by decide)
  refine ⟨?_, ?_, ?_, ?_, ?_, ?_⟩
  · rintro e (he | he | he)
    · exact Or.inr (hP e he).1
    · rcases hC e he with h | h
      · exact Or.inl h.2
      · exact Or.inr h.2
    · rcases hT e he with h | h
      · exact Or.inl h.2
      · exact Or.inr h.2
  · constructor
    · rintro ⟨e, he, hk⟩
      rcases hC e he with h | h
      · exact h.1
      · exact absurd hk (hne e h.2)
    · intro h
      rw [Unmarshal_of_empty unmarshal r v h]
      exact ⟨_, rfl, rfl⟩
  · constructor
    · rintro ⟨e, he, hk⟩
      rcases hT e he with h | h
      · exact h.1
      · exact absurd hk (hne e h.2)
    · intro h
      rw [UnmarshalTypeConfig_of_empty unmarshal r v h]
      exact ⟨_, rfl, rfl⟩
  · intro h
    refine ⟨?_, ?_⟩
    · rw [Unmarshal_of_empty unmarshal r v h]; simp
    · intro e he hk
      rcases hC e he with h' | h'
      · exact hne e hk h'.2
      · exact h'.1 h
  · intro h
    refine ⟨?_, ?_⟩
    · rw [UnmarshalTypeConfig_of_empty unmarshal r v h]; simp
    · intro e he hk
      rcases hT e he with h' | h'
      · exact hne e hk h'.2
      · exact h'.1 h
  · intro e he
    exact ⟨(hP e he).1, hne e (hP e he).1, (hP e he).2⟩

end Handler
